import Mathlib

set_option maxRecDepth 8000

/-!
Verification development for the CMND API packet framer of this repository.

The whole-buffer parser `p_CmndPacketParser_ParseCmndPacket` is embedded from
`CmndPacketParser.c` (the file that also holds `p_CmndPacketParser_ParseCmndApiPacket`).
Bytes are `Nat` values (a `u8` is a value below 256), a buffer is a `List Nat`,
and the `u16` length argument is a `Nat` (a `u16` value is below 65536).
The out-pointer of the C function is an `Option` of the message structure:
`none` stands for a NULL pointer, `some m` for a pointer to a message whose
current content is `m`.  The function returns the C `bool` result together
with the content of the pointed-to message after the call.
-/

namespace DectSandbox

/-- Modelled from the spec: the header `CmndApiExported.h` with the protocol
offset constants is not under `src/`.  Byte offset of the cookie field,
from the wire-format table of the spec (offset 0). -/
def CMND_API_PROTOCOL_COOKIE_POS : Nat := 0

/-- Modelled from the spec: byte offset of the unitId field (offset 1). -/
def CMND_API_PROTOCOL_UNITID_POS : Nat := 1

/-- Modelled from the spec: byte offset of the 16-bit serviceId field
(offsets 2 and 3, network byte order). -/
def CMND_API_PROTOCOL_SERVICEID_POS : Nat := 2

/-- Modelled from the spec: byte offset of the messageId field (offset 4). -/
def CMND_API_PROTOCOL_MESSAGEID_POS : Nat := 4

/-- Modelled from the spec: byte offset of the checksum field (offset 5). -/
def CMND_API_PROTOCOL_CHECKSUM_POS : Nat := 5

/-- Modelled from the spec: byte offset at which the payload begins
(immediately after the fixed header, offset 6). -/
def CMND_API_PROTOCOL_DATASTART_POS : Nat := 6

/-- Modelled from the spec: size of the fixed header, the six bytes
cookie, unitId, serviceId (2 bytes), messageId, checksum. -/
def CMND_API_PROTOCOL_SIZE_WITHOUT_DATA : Nat := 6

/-- Modelled from the spec: the fixed maximum payload capacity
`CMNDLIB_API_PACKET_MAX_SIZE` (size of the `data` array of the message
structure).  The spec does not state its numeric value; 128 is used here,
matching the examples of the repository which send payloads of up to
128 bytes.  Every non-concrete theorem below is relational in this value. -/
def CMNDLIB_API_PACKET_MAX_SIZE : Nat := 128

/-- Modelled from the spec: `Endian.h` is not under `src/`.  In the C source
two wire bytes are copied by `memcpy` into the `u16` field and then
`p_Endian_net2hos16` converts from network (big-endian) byte order to host
order; the combined effect, modelled here as a function of the two wire
bytes, is the big-endian value of the pair, a `u16`. -/
def p_Endian_net2hos16 (hi lo : Nat) : Nat :=
  (hi * 256 + lo) % 65536

/-- The message structure `t_st_hanCmndApiMsg` of the CMND API.  The `data`
field is a fixed array of `CMNDLIB_API_PACKET_MAX_SIZE` bytes in C; it is
kept here as a list whose length is that constant in every message the
parser produces. -/
@[ext]
structure t_st_hanCmndApiMsg where
  cookie : Nat
  unitId : Nat
  serviceId : Nat
  messageId : Nat
  checkSum : Nat
  dataLength : Nat
  data : List Nat
deriving DecidableEq

/-- The all-zero message: the effect of
`memset( pst_cmndApiMsg, 0, sizeof(t_st_hanCmndApiMsg) )`. -/
def zeroed_hanCmndApiMsg : t_st_hanCmndApiMsg :=
  { cookie := 0
    unitId := 0
    serviceId := 0
    messageId := 0
    checkSum := 0
    dataLength := 0
    data := List.replicate CMNDLIB_API_PACKET_MAX_SIZE 0 }

/-- `memcpy(dst, src, src.length)` into the front of a fixed array:
the first `src.length` cells of `dst` are overwritten, the rest keep
their values. -/
def memcpyInto (dst src : List Nat) : List Nat :=
  src ++ dst.drop src.length

/-- The message after the memset and the six header-field assignments of
`p_CmndPacketParser_ParseCmndPacket` (cookie, unitId, serviceId via
`memcpy` plus `p_Endian_net2hos16`, messageId, checkSum, and
`dataLength = 0`). -/
def parsedHeader (pu8_Buffer : List Nat) : t_st_hanCmndApiMsg :=
  { cookie := pu8_Buffer.getD CMND_API_PROTOCOL_COOKIE_POS 0
    unitId := pu8_Buffer.getD CMND_API_PROTOCOL_UNITID_POS 0
    serviceId := p_Endian_net2hos16 (pu8_Buffer.getD CMND_API_PROTOCOL_SERVICEID_POS 0)
      (pu8_Buffer.getD (CMND_API_PROTOCOL_SERVICEID_POS + 1) 0)
    messageId := pu8_Buffer.getD CMND_API_PROTOCOL_MESSAGEID_POS 0
    checkSum := pu8_Buffer.getD CMND_API_PROTOCOL_CHECKSUM_POS 0
    dataLength := 0
    data := List.replicate CMNDLIB_API_PACKET_MAX_SIZE 0 }

/-- Embedding of `p_CmndPacketParser_ParseCmndPacket` from
`CmndPacketParser.c`.  The C control flow:
too-short buffer or NULL out-pointer returns `false` untouched; otherwise
the message is zeroed and the header fields are filled; if the buffer is
longer than the fixed header, `dataLength` is set to the remainder and the
payload is copied when `dataLength < CMNDLIB_API_PACKET_MAX_SIZE`, else
`ok = false` is returned (with the header fields already written). -/
def p_CmndPacketParser_ParseCmndPacket (u16_BufferLength : Nat) (pu8_Buffer : List Nat)
    (pst_cmndApiMsg : Option t_st_hanCmndApiMsg) :
    Bool × Option t_st_hanCmndApiMsg :=
  match pst_cmndApiMsg with
  | none => (false, none)
  | some m0 =>
    if u16_BufferLength < CMND_API_PROTOCOL_SIZE_WITHOUT_DATA then
      (false, some m0)
    else if CMND_API_PROTOCOL_SIZE_WITHOUT_DATA < u16_BufferLength then
      if u16_BufferLength - CMND_API_PROTOCOL_SIZE_WITHOUT_DATA
          < CMNDLIB_API_PACKET_MAX_SIZE then
        (true, some { parsedHeader pu8_Buffer with
          dataLength := u16_BufferLength - CMND_API_PROTOCOL_SIZE_WITHOUT_DATA
          data := memcpyInto (List.replicate CMNDLIB_API_PACKET_MAX_SIZE 0)
            ((pu8_Buffer.drop CMND_API_PROTOCOL_DATASTART_POS).take
              (u16_BufferLength - CMND_API_PROTOCOL_SIZE_WITHOUT_DATA)) })
      else
        (false, some { parsedHeader pu8_Buffer with
          dataLength := u16_BufferLength - CMND_API_PROTOCOL_SIZE_WITHOUT_DATA })
    else
      (true, some (parsedHeader pu8_Buffer))

-- Branch lemmas characterising the parser, used by several claim proofs.

theorem parseCmndPacket_none (u16_BufferLength : Nat) (pu8_Buffer : List Nat) :
    p_CmndPacketParser_ParseCmndPacket u16_BufferLength pu8_Buffer none = (false, none) :=
  rfl

theorem parseCmndPacket_short (u16_BufferLength : Nat) (pu8_Buffer : List Nat)
    (m0 : t_st_hanCmndApiMsg)
    (h : u16_BufferLength < CMND_API_PROTOCOL_SIZE_WITHOUT_DATA) :
    p_CmndPacketParser_ParseCmndPacket u16_BufferLength pu8_Buffer (some m0) =
      (false, some m0) := by
  simp [p_CmndPacketParser_ParseCmndPacket, h]

theorem parseCmndPacket_exact (u16_BufferLength : Nat) (pu8_Buffer : List Nat)
    (m0 : t_st_hanCmndApiMsg)
    (h : u16_BufferLength = CMND_API_PROTOCOL_SIZE_WITHOUT_DATA) :
    p_CmndPacketParser_ParseCmndPacket u16_BufferLength pu8_Buffer (some m0) =
      (true, some (parsedHeader pu8_Buffer)) := by
  subst h
  simp [p_CmndPacketParser_ParseCmndPacket]

theorem parseCmndPacket_mid (u16_BufferLength : Nat) (pu8_Buffer : List Nat)
    (m0 : t_st_hanCmndApiMsg)
    (h6 : CMND_API_PROTOCOL_SIZE_WITHOUT_DATA < u16_BufferLength)
    (hmax : u16_BufferLength - CMND_API_PROTOCOL_SIZE_WITHOUT_DATA
      < CMNDLIB_API_PACKET_MAX_SIZE) :
    p_CmndPacketParser_ParseCmndPacket u16_BufferLength pu8_Buffer (some m0) =
      (true, some { parsedHeader pu8_Buffer with
        dataLength := u16_BufferLength - CMND_API_PROTOCOL_SIZE_WITHOUT_DATA
        data := memcpyInto (List.replicate CMNDLIB_API_PACKET_MAX_SIZE 0)
          ((pu8_Buffer.drop CMND_API_PROTOCOL_DATASTART_POS).take
            (u16_BufferLength - CMND_API_PROTOCOL_SIZE_WITHOUT_DATA)) }) := by
  simp [p_CmndPacketParser_ParseCmndPacket, h6, hmax, Nat.not_lt.mpr (Nat.le_of_lt h6)]

theorem parseCmndPacket_big (u16_BufferLength : Nat) (pu8_Buffer : List Nat)
    (m0 : t_st_hanCmndApiMsg)
    (h6 : CMND_API_PROTOCOL_SIZE_WITHOUT_DATA < u16_BufferLength)
    (hmax : CMNDLIB_API_PACKET_MAX_SIZE ≤
      u16_BufferLength - CMND_API_PROTOCOL_SIZE_WITHOUT_DATA) :
    p_CmndPacketParser_ParseCmndPacket u16_BufferLength pu8_Buffer (some m0) =
      (false, some { parsedHeader pu8_Buffer with
        dataLength := u16_BufferLength - CMND_API_PROTOCOL_SIZE_WITHOUT_DATA }) := by
  simp [p_CmndPacketParser_ParseCmndPacket, h6, Nat.not_lt.mpr hmax,
    Nat.not_lt.mpr (Nat.le_of_lt h6)]

-- Small list facts used by the claim proofs.

theorem getD_replicate_zero (n i : Nat) : (List.replicate n 0).getD i 0 = 0 := by
  induction n generalizing i with
  | zero => simp
  | succ k ih =>
    cases i with
    | zero => simp [List.replicate_succ]
    | succ j =>
      rw [List.replicate_succ, List.getD_cons_succ]
      exact ih j

theorem getD_byte_lt (pu8_Buffer : List Nat) (hbytes : ∀ x ∈ pu8_Buffer, x < 256)
    (i : Nat) (h : i < pu8_Buffer.length) : pu8_Buffer.getD i 0 < 256 := by
  rw [List.getD_eq_getElem _ _ h]
  exact hbytes _ (List.getElem_mem h)

-- Concrete messages used by witnesses.

/-- The message produced by parsing the 7-byte buffer
`[0xAA, 3, 0, 1, 5, 0x7A, 9]` (one payload byte `9`). -/
def witnessMsg7 : t_st_hanCmndApiMsg :=
  { cookie := 0xAA
    unitId := 3
    serviceId := 1
    messageId := 5
    checkSum := 0x7A
    dataLength := 1
    data := 9 :: List.replicate 127 0 }

/-- C2: on every successful parse the output dataLength equals the buffer
length minus `CMND_API_PROTOCOL_SIZE_WITHOUT_DATA`, and no buffer shorter
than the fixed header size is ever accepted. -/
theorem parse_dataLength_invariant (u16_BufferLength : Nat) (pu8_Buffer : List Nat)
    (m0 m : t_st_hanCmndApiMsg)
    (hsuc : p_CmndPacketParser_ParseCmndPacket u16_BufferLength pu8_Buffer (some m0) =
      (true, some m)) :
    m.dataLength = u16_BufferLength - CMND_API_PROTOCOL_SIZE_WITHOUT_DATA ∧
      CMND_API_PROTOCOL_SIZE_WITHOUT_DATA ≤ u16_BufferLength := by
  rcases Nat.lt_trichotomy u16_BufferLength CMND_API_PROTOCOL_SIZE_WITHOUT_DATA
    with h | h | h
  · rw [parseCmndPacket_short _ _ _ h] at hsuc
    simp at hsuc
  · rw [parseCmndPacket_exact _ _ _ h] at hsuc
    simp only [Prod.mk.injEq, Option.some.injEq, true_and] at hsuc
    subst hsuc
    subst h
    exact ⟨rfl, Nat.le_refl _⟩
  · by_cases hmax : u16_BufferLength - CMND_API_PROTOCOL_SIZE_WITHOUT_DATA
        < CMNDLIB_API_PACKET_MAX_SIZE
    · rw [parseCmndPacket_mid _ _ _ h hmax] at hsuc
      simp only [Prod.mk.injEq, Option.some.injEq, true_and] at hsuc
      subst hsuc
      exact ⟨rfl, Nat.le_of_lt h⟩
    · rw [parseCmndPacket_big _ _ _ h (Nat.le_of_not_lt hmax)] at hsuc
      simp at hsuc

/-- Witness for C2 at the concrete successful input
`[0xAA, 3, 0, 1, 5, 0x7A, 9]` of length 7. -/
theorem parse_dataLength_invariant_witness :
    witnessMsg7.dataLength = 7 - CMND_API_PROTOCOL_SIZE_WITHOUT_DATA ∧
      CMND_API_PROTOCOL_SIZE_WITHOUT_DATA ≤ 7 :=
  parse_dataLength_invariant 7 [0xAA, 3, 0, 1, 5, 0x7A, 9]
    zeroed_hanCmndApiMsg witnessMsg7 (by decide)

/-- C3: a buffer length strictly below the fixed header size is rejected
(the output untouched), and a buffer of exactly the fixed header size is
accepted with the fully populated header message, whose dataLength is 0
and whose payload array is all zeroes. -/
theorem parse_min_length_boundary (u16_BufferLength : Nat) (pu8_Buffer : List Nat)
    (m0 : t_st_hanCmndApiMsg) :
    (u16_BufferLength < CMND_API_PROTOCOL_SIZE_WITHOUT_DATA →
      ∀ o : Option t_st_hanCmndApiMsg,
        p_CmndPacketParser_ParseCmndPacket u16_BufferLength pu8_Buffer o = (false, o)) ∧
    (u16_BufferLength = CMND_API_PROTOCOL_SIZE_WITHOUT_DATA →
      p_CmndPacketParser_ParseCmndPacket u16_BufferLength pu8_Buffer (some m0) =
          (true, some (parsedHeader pu8_Buffer)) ∧
        (parsedHeader pu8_Buffer).dataLength = 0 ∧
        (parsedHeader pu8_Buffer).data =
          List.replicate CMNDLIB_API_PACKET_MAX_SIZE 0) := by
  constructor
  · intro h o
    cases o with
    | none => exact parseCmndPacket_none _ _
    | some m => exact parseCmndPacket_short _ _ _ h
  · intro h
    exact ⟨parseCmndPacket_exact _ _ _ h, rfl, rfl⟩

/-- Witness for C3 at a 5-byte buffer (exactly header size minus one)
and at the 6-byte header-only buffer. -/
theorem parse_min_length_boundary_witness :
    p_CmndPacketParser_ParseCmndPacket 5 [0xAA, 3, 0, 1, 5]
        (some zeroed_hanCmndApiMsg) = (false, some zeroed_hanCmndApiMsg) ∧
    p_CmndPacketParser_ParseCmndPacket 6 [0xAA, 3, 0, 1, 5, 0x7A]
        (some zeroed_hanCmndApiMsg) =
      (true, some (parsedHeader [0xAA, 3, 0, 1, 5, 0x7A])) :=
  ⟨(parse_min_length_boundary 5 [0xAA, 3, 0, 1, 5] zeroed_hanCmndApiMsg).1
      (by decide) (some zeroed_hanCmndApiMsg),
   ((parse_min_length_boundary 6 [0xAA, 3, 0, 1, 5, 0x7A] zeroed_hanCmndApiMsg).2
      rfl).1⟩

/-- C4: a buffer longer than the fixed header whose computed payload length
is at least `CMNDLIB_API_PACKET_MAX_SIZE` is rejected. -/
theorem parse_payload_too_large (u16_BufferLength : Nat) (pu8_Buffer : List Nat)
    (m0 : t_st_hanCmndApiMsg)
    (h6 : CMND_API_PROTOCOL_SIZE_WITHOUT_DATA < u16_BufferLength)
    (hmax : CMNDLIB_API_PACKET_MAX_SIZE ≤
      u16_BufferLength - CMND_API_PROTOCOL_SIZE_WITHOUT_DATA) :
    (p_CmndPacketParser_ParseCmndPacket u16_BufferLength pu8_Buffer (some m0)).1 =
      false := by
  rw [parseCmndPacket_big _ _ _ h6 hmax]

/-- Witness for C4 at length 135: the computed payload length 129 is one
byte over the payload capacity 128 and the parse fails. -/
theorem parse_payload_too_large_witness :
    (p_CmndPacketParser_ParseCmndPacket 135 (List.replicate 135 0)
      (some zeroed_hanCmndApiMsg)).1 = false :=
  parse_payload_too_large 135 (List.replicate 135 0) zeroed_hanCmndApiMsg
    (by decide) (by decide)

/-- C8: the concrete 6-byte buffer `[0xAA, 0x03, 0x00, 0x01, 0x05, 0x7A]`
parses successfully to the message with cookie 0xAA, unitId 3, serviceId 1,
messageId 5, checkSum 0x7A, dataLength 0 and an all-zero payload array,
whatever the prior content of the output message. -/
theorem parse_concrete_scenario (m0 : t_st_hanCmndApiMsg) :
    p_CmndPacketParser_ParseCmndPacket 6 [0xAA, 0x03, 0x00, 0x01, 0x05, 0x7A]
        (some m0) =
      (true, some { cookie := 0xAA
                    unitId := 3
                    serviceId := 1
                    messageId := 5
                    checkSum := 0x7A
                    dataLength := 0
                    data := List.replicate CMNDLIB_API_PACKET_MAX_SIZE 0 }) :=
  rfl

/-- C9: a NULL output-message pointer makes the parse return false and
touch nothing, regardless of the buffer and the length. -/
theorem parse_null_output_rejected (u16_BufferLength : Nat) (pu8_Buffer : List Nat) :
    p_CmndPacketParser_ParseCmndPacket u16_BufferLength pu8_Buffer none =
      (false, none) :=
  rfl

/-- C1: on every accepted buffer the output fields are read from the fixed
byte offsets: cookie from offset 0, unitId from offset 1, serviceId from
offsets 2 and 3 in big-endian order, messageId from offset 4, checksum from
offset 5, and the payload bytes are the dataLength bytes immediately after
the fixed header. -/
theorem parse_fixed_offsets (u16_BufferLength : Nat) (pu8_Buffer : List Nat)
    (m0 m : t_st_hanCmndApiMsg)
    (hbytes : ∀ x ∈ pu8_Buffer, x < 256)
    (hlen : u16_BufferLength = pu8_Buffer.length)
    (hsuc : p_CmndPacketParser_ParseCmndPacket u16_BufferLength pu8_Buffer (some m0) =
      (true, some m)) :
    m.cookie = pu8_Buffer.getD 0 0 ∧
    m.unitId = pu8_Buffer.getD 1 0 ∧
    m.serviceId = pu8_Buffer.getD 2 0 * 256 + pu8_Buffer.getD 3 0 ∧
    m.messageId = pu8_Buffer.getD 4 0 ∧
    m.checkSum = pu8_Buffer.getD 5 0 ∧
    m.data.take m.dataLength =
      (pu8_Buffer.drop CMND_API_PROTOCOL_DATASTART_POS).take m.dataLength := by
  have hserv : ∀ h6 : CMND_API_PROTOCOL_SIZE_WITHOUT_DATA ≤ u16_BufferLength,
      p_Endian_net2hos16 (pu8_Buffer.getD CMND_API_PROTOCOL_SERVICEID_POS 0)
          (pu8_Buffer.getD (CMND_API_PROTOCOL_SERVICEID_POS + 1) 0) =
        pu8_Buffer.getD 2 0 * 256 + pu8_Buffer.getD 3 0 := by
    intro h6
    have h6n : 6 ≤ u16_BufferLength := h6
    have h2 : pu8_Buffer.getD 2 0 < 256 := by
      refine getD_byte_lt _ hbytes 2 ?_
      omega
    have h3 : pu8_Buffer.getD 3 0 < 256 := by
      refine getD_byte_lt _ hbytes 3 ?_
      omega
    show (pu8_Buffer.getD 2 0 * 256 + pu8_Buffer.getD 3 0) % 65536 = _
    omega
  rcases Nat.lt_trichotomy u16_BufferLength CMND_API_PROTOCOL_SIZE_WITHOUT_DATA
    with h | h | h
  · rw [parseCmndPacket_short _ _ _ h] at hsuc
    simp at hsuc
  · rw [parseCmndPacket_exact _ _ _ h] at hsuc
    simp only [Prod.mk.injEq, Option.some.injEq, true_and] at hsuc
    subst hsuc
    refine ⟨rfl, rfl, hserv (Nat.le_of_eq h.symm), rfl, rfl, ?_⟩
    rfl
  · by_cases hmax : u16_BufferLength - CMND_API_PROTOCOL_SIZE_WITHOUT_DATA
        < CMNDLIB_API_PACKET_MAX_SIZE
    · rw [parseCmndPacket_mid _ _ _ h hmax] at hsuc
      simp only [Prod.mk.injEq, Option.some.injEq, true_and] at hsuc
      subst hsuc
      refine ⟨rfl, rfl, hserv (Nat.le_of_lt h), rfl, rfl, ?_⟩
      show (memcpyInto _ _).take _ = _
      have hplen : ((pu8_Buffer.drop CMND_API_PROTOCOL_DATASTART_POS).take
          (u16_BufferLength - CMND_API_PROTOCOL_SIZE_WITHOUT_DATA)).length =
            u16_BufferLength - CMND_API_PROTOCOL_SIZE_WITHOUT_DATA := by
        simp [CMND_API_PROTOCOL_DATASTART_POS, CMND_API_PROTOCOL_SIZE_WITHOUT_DATA,
          hlen]
      rw [memcpyInto, List.take_left' hplen]
    · rw [parseCmndPacket_big _ _ _ h (Nat.le_of_not_lt hmax)] at hsuc
      simp at hsuc

/-- Witness for C1 at the 7-byte buffer `[0xAA, 3, 0, 1, 5, 0x7A, 9]`. -/
theorem parse_fixed_offsets_witness :
    witnessMsg7.cookie = [0xAA, 3, 0, 1, 5, 0x7A, 9].getD 0 0 ∧
    witnessMsg7.unitId = [0xAA, 3, 0, 1, 5, 0x7A, 9].getD 1 0 ∧
    witnessMsg7.serviceId =
      [0xAA, 3, 0, 1, 5, 0x7A, 9].getD 2 0 * 256 + [0xAA, 3, 0, 1, 5, 0x7A, 9].getD 3 0 ∧
    witnessMsg7.messageId = [0xAA, 3, 0, 1, 5, 0x7A, 9].getD 4 0 ∧
    witnessMsg7.checkSum = [0xAA, 3, 0, 1, 5, 0x7A, 9].getD 5 0 ∧
    witnessMsg7.data.take witnessMsg7.dataLength =
      (([0xAA, 3, 0, 1, 5, 0x7A, 9] : List Nat).drop
        CMND_API_PROTOCOL_DATASTART_POS).take witnessMsg7.dataLength :=
  parse_fixed_offsets 7 [0xAA, 3, 0, 1, 5, 0x7A, 9] zeroed_hanCmndApiMsg witnessMsg7
    (by decide) (by decide) (by decide)

/-- C10: a successful parse zeroes the whole output message before filling
it, so every byte of the output data array at an index at or beyond the
resulting dataLength is zero, whatever the prior content of the output. -/
theorem parse_data_tail_zero (u16_BufferLength : Nat) (pu8_Buffer : List Nat)
    (m0 m : t_st_hanCmndApiMsg)
    (hsuc : p_CmndPacketParser_ParseCmndPacket u16_BufferLength pu8_Buffer (some m0) =
      (true, some m)) :
    ∀ i, m.dataLength ≤ i → m.data.getD i 0 = 0 := by
  rcases Nat.lt_trichotomy u16_BufferLength CMND_API_PROTOCOL_SIZE_WITHOUT_DATA
    with h | h | h
  · rw [parseCmndPacket_short _ _ _ h] at hsuc
    simp at hsuc
  · rw [parseCmndPacket_exact _ _ _ h] at hsuc
    simp only [Prod.mk.injEq, Option.some.injEq, true_and] at hsuc
    subst hsuc
    intro i _
    exact getD_replicate_zero _ i
  · by_cases hmax : u16_BufferLength - CMND_API_PROTOCOL_SIZE_WITHOUT_DATA
        < CMNDLIB_API_PACKET_MAX_SIZE
    · rw [parseCmndPacket_mid _ _ _ h hmax] at hsuc
      simp only [Prod.mk.injEq, Option.some.injEq, true_and] at hsuc
      subst hsuc
      intro i hi
      show (memcpyInto _ _).getD i 0 = 0
      have hple : ((pu8_Buffer.drop CMND_API_PROTOCOL_DATASTART_POS).take
          (u16_BufferLength - CMND_API_PROTOCOL_SIZE_WITHOUT_DATA)).length ≤ i := by
        have := List.length_take_le
          (u16_BufferLength - CMND_API_PROTOCOL_SIZE_WITHOUT_DATA)
          (pu8_Buffer.drop CMND_API_PROTOCOL_DATASTART_POS)
        exact Nat.le_trans this hi
      rw [memcpyInto, List.getD_append_right _ _ _ _ hple, List.drop_replicate]
      exact getD_replicate_zero _ _
    · rw [parseCmndPacket_big _ _ _ h (Nat.le_of_not_lt hmax)] at hsuc
      simp at hsuc

/-- Witness for C10 at the 7-byte buffer `[0xAA, 3, 0, 1, 5, 0x7A, 9]`,
sampled at index 1 (the first index beyond the one payload byte). -/
theorem parse_data_tail_zero_witness : witnessMsg7.data.getD 1 0 = 0 :=
  parse_data_tail_zero 7 [0xAA, 3, 0, 1, 5, 0x7A, 9] zeroed_hanCmndApiMsg witnessMsg7
    (by decide) 1 (by decide)

/-- C5 counterexample: at buffer length 134 (computed payload length 128,
at the capacity) the parse fails, yet the output message no longer equals
its initial content: the failing call zeroed it and filled the header
fields before detecting the oversized payload. -/
theorem parse_failure_mutates_output :
    (p_CmndPacketParser_ParseCmndPacket 134 (List.replicate 134 0)
        (some { zeroed_hanCmndApiMsg with cookie := 7 })).1 = false ∧
    (p_CmndPacketParser_ParseCmndPacket 134 (List.replicate 134 0)
        (some { zeroed_hanCmndApiMsg with cookie := 7 })).2 ≠
      some { zeroed_hanCmndApiMsg with cookie := 7 } := by
  decide

/-- C5 (amended): a call failing because the buffer is shorter than the
fixed header, or because the output pointer is NULL, leaves the output
untouched; a call failing because of an oversized computed payload length
overwrites the output with the zeroed, header-filled message carrying that
oversized dataLength, and copies no payload byte. -/
theorem parse_failure_mutation (u16_BufferLength : Nat) (pu8_Buffer : List Nat)
    (m0 : t_st_hanCmndApiMsg) :
    (u16_BufferLength < CMND_API_PROTOCOL_SIZE_WITHOUT_DATA →
      p_CmndPacketParser_ParseCmndPacket u16_BufferLength pu8_Buffer (some m0) =
        (false, some m0)) ∧
    p_CmndPacketParser_ParseCmndPacket u16_BufferLength pu8_Buffer none =
      (false, none) ∧
    (CMND_API_PROTOCOL_SIZE_WITHOUT_DATA < u16_BufferLength →
      CMNDLIB_API_PACKET_MAX_SIZE ≤
          u16_BufferLength - CMND_API_PROTOCOL_SIZE_WITHOUT_DATA →
      p_CmndPacketParser_ParseCmndPacket u16_BufferLength pu8_Buffer (some m0) =
        (false, some { parsedHeader pu8_Buffer with
          dataLength := u16_BufferLength - CMND_API_PROTOCOL_SIZE_WITHOUT_DATA })) :=
  ⟨fun h => parseCmndPacket_short _ _ _ h,
   parseCmndPacket_none _ _,
   fun h6 hmax => parseCmndPacket_big _ _ _ h6 hmax⟩

/-- Witness for the amended C5 at length 3 (too short, untouched) and at
length 134 (oversized payload, header-filled output). -/
theorem parse_failure_mutation_witness :
    p_CmndPacketParser_ParseCmndPacket 3 [1, 2, 3] (some zeroed_hanCmndApiMsg) =
        (false, some zeroed_hanCmndApiMsg) ∧
    p_CmndPacketParser_ParseCmndPacket 134 (List.replicate 134 0)
        (some zeroed_hanCmndApiMsg) =
      (false, some { parsedHeader (List.replicate 134 0) with dataLength := 128 }) :=
  ⟨(parse_failure_mutation 3 [1, 2, 3] zeroed_hanCmndApiMsg).1 (by decide),
   (parse_failure_mutation 134 (List.replicate 134 0) zeroed_hanCmndApiMsg).2.2
      (by decide) (by decide)⟩

-- The wire encoder and message validity, for the round-trip claim.

/-- Modelled from the spec: the wire encoder of a message is not under
`src/` (the builders in `src/libs/CmndLib/src` fill the message structure,
not the wire bytes).  Per the wire-format table of the spec: the six-byte
fixed header (cookie, unitId, serviceId big-endian, messageId, checksum)
followed by the first dataLength payload bytes. -/
def hanCmndApi_Encode (m : t_st_hanCmndApiMsg) : List Nat :=
  [m.cookie, m.unitId, m.serviceId / 256, m.serviceId % 256, m.messageId, m.checkSum]
    ++ m.data.take m.dataLength

/-- A well-formed message value: every field fits its C integer type, and
the data array has its fixed size with zeroes beyond dataLength. -/
def ValidMsg (m : t_st_hanCmndApiMsg) : Prop :=
  m.cookie < 256 ∧ m.unitId < 256 ∧ m.serviceId < 65536 ∧ m.messageId < 256 ∧
  m.checkSum < 256 ∧ m.data.length = CMNDLIB_API_PACKET_MAX_SIZE ∧
  m.data.drop m.dataLength = List.replicate (m.data.length - m.dataLength) 0

/-- The all-zero message whose dataLength is exactly the payload capacity. -/
def maxLenMsg : t_st_hanCmndApiMsg :=
  { zeroed_hanCmndApiMsg with dataLength := CMNDLIB_API_PACKET_MAX_SIZE }

/-- C7 counterexample: `maxLenMsg` is valid and its dataLength is at most
the payload capacity, yet encoding and parsing it back does not return it:
the parser rejects a computed payload length equal to the capacity. -/
theorem encode_parse_roundtrip_cex :
    ValidMsg maxLenMsg ∧
    maxLenMsg.dataLength ≤ CMNDLIB_API_PACKET_MAX_SIZE ∧
    p_CmndPacketParser_ParseCmndPacket (hanCmndApi_Encode maxLenMsg).length
        (hanCmndApi_Encode maxLenMsg) (some zeroed_hanCmndApiMsg) ≠
      (true, some maxLenMsg) := by
  refine ⟨⟨?_, ?_, ?_, ?_, ?_, ?_, ?_⟩, ?_, ?_⟩ <;> decide

/-- C7 (amended): for every valid message whose dataLength is strictly
below the payload capacity, parsing the encoded packet succeeds and
returns exactly the message; the bound is strict because the parser
rejects a computed payload length equal to the capacity. -/
theorem encode_parse_roundtrip (m m0 : t_st_hanCmndApiMsg) (hv : ValidMsg m)
    (hdl : m.dataLength < CMNDLIB_API_PACKET_MAX_SIZE) :
    p_CmndPacketParser_ParseCmndPacket (hanCmndApi_Encode m).length
      (hanCmndApi_Encode m) (some m0) = (true, some m) := by
  obtain ⟨hc, hu, hs, hmi, hk, hdlen, hdrop⟩ := hv
  have hdl128 : m.dataLength < 128 := hdl
  have htake : (m.data.take m.dataLength).length = m.dataLength := by
    rw [List.length_take, hdlen]
    show min m.dataLength 128 = m.dataLength
    omega
  have hlen : (hanCmndApi_Encode m).length = 6 + m.dataLength := by
    simp [hanCmndApi_Encode]
    omega
  have hserv : p_Endian_net2hos16 (m.serviceId / 256) (m.serviceId % 256) =
      m.serviceId := by
    show (m.serviceId / 256 * 256 + m.serviceId % 256) % 65536 = m.serviceId
    omega
  have hdata : m.data = m.data.take m.dataLength ++
      List.replicate (CMNDLIB_API_PACKET_MAX_SIZE - m.dataLength) 0 := by
    conv_lhs => rw [← List.take_append_drop m.dataLength m.data]
    rw [hdrop, hdlen]
  rcases Nat.eq_zero_or_pos m.dataLength with h0 | hpos
  · have h6 : (hanCmndApi_Encode m).length = CMND_API_PROTOCOL_SIZE_WITHOUT_DATA := by
      rw [hlen, h0]
      rfl
    rw [parseCmndPacket_exact _ _ _ h6]
    have hd : m.data = List.replicate CMNDLIB_API_PACKET_MAX_SIZE 0 := by
      rw [hdata, h0]
      simp
    refine congrArg _ (congrArg _ ?_)
    ext : 1
    · simp [parsedHeader, hanCmndApi_Encode, CMND_API_PROTOCOL_COOKIE_POS]
    · simp [parsedHeader, hanCmndApi_Encode, CMND_API_PROTOCOL_UNITID_POS]
    · simp [parsedHeader, hanCmndApi_Encode, CMND_API_PROTOCOL_SERVICEID_POS, hserv]
    · simp [parsedHeader, hanCmndApi_Encode, CMND_API_PROTOCOL_MESSAGEID_POS]
    · simp [parsedHeader, hanCmndApi_Encode, CMND_API_PROTOCOL_CHECKSUM_POS]
    · simp [parsedHeader, h0]
    · simp [parsedHeader, hd]
  · have h6 : CMND_API_PROTOCOL_SIZE_WITHOUT_DATA < (hanCmndApi_Encode m).length := by
      rw [hlen]
      show 6 < 6 + m.dataLength
      omega
    have hmax2 : (hanCmndApi_Encode m).length - CMND_API_PROTOCOL_SIZE_WITHOUT_DATA <
        CMNDLIB_API_PACKET_MAX_SIZE := by
      rw [hlen]
      show 6 + m.dataLength - 6 < CMNDLIB_API_PACKET_MAX_SIZE
      omega
    have hsub : (hanCmndApi_Encode m).length - CMND_API_PROTOCOL_SIZE_WITHOUT_DATA =
        m.dataLength := by
      rw [hlen]
      show 6 + m.dataLength - 6 = m.dataLength
      omega
    have hpayload : ((hanCmndApi_Encode m).drop CMND_API_PROTOCOL_DATASTART_POS).take
        m.dataLength = m.data.take m.dataLength := by
      show ((hanCmndApi_Encode m).drop 6).take m.dataLength = _
      simp [hanCmndApi_Encode, List.take_take]
    have hd : memcpyInto (List.replicate CMNDLIB_API_PACKET_MAX_SIZE 0)
        (m.data.take m.dataLength) = m.data := by
      rw [memcpyInto, htake, List.drop_replicate]
      exact hdata.symm
    rw [parseCmndPacket_mid _ _ _ h6 hmax2, hsub, hpayload, hd]
    refine congrArg _ (congrArg _ ?_)
    ext : 1
    · simp [parsedHeader, hanCmndApi_Encode, CMND_API_PROTOCOL_COOKIE_POS]
    · simp [parsedHeader, hanCmndApi_Encode, CMND_API_PROTOCOL_UNITID_POS]
    · simp [parsedHeader, hanCmndApi_Encode, CMND_API_PROTOCOL_SERVICEID_POS, hserv]
    · simp [parsedHeader, hanCmndApi_Encode, CMND_API_PROTOCOL_MESSAGEID_POS]
    · simp [parsedHeader, hanCmndApi_Encode, CMND_API_PROTOCOL_CHECKSUM_POS]
    · rfl
    · rfl

/-- Witness for the amended C7 at the concrete message `witnessMsg7`. -/
theorem encode_parse_roundtrip_witness :
    p_CmndPacketParser_ParseCmndPacket (hanCmndApi_Encode witnessMsg7).length
      (hanCmndApi_Encode witnessMsg7) (some zeroed_hanCmndApiMsg) =
      (true, some witnessMsg7) :=
  encode_parse_roundtrip witnessMsg7 zeroed_hanCmndApiMsg
    ⟨by decide, by decide, by decide, by decide, by decide, by decide, by decide⟩
    (by decide)

-- The byte-at-a-time framer (spec section 4.1, feedByte) and its
-- equivalence with the whole-buffer parser.

theorem set_append_left_length (xs ys : List Nat) (a : Nat) :
    (xs ++ ys).set xs.length a = xs ++ ys.set 0 a := by
  induction xs with
  | nil => simp
  | cons x t ih => simp [List.set, ih]

theorem set_append_of_length (xs ys : List Nat) (a : Nat) (n : Nat)
    (h : xs.length = n) : (xs ++ ys).set n a = xs ++ ys.set 0 a := by
  subst h
  exact set_append_left_length xs ys a

theorem take_succ_getD (l : List Nat) (n : Nat) (h : n < l.length) :
    l.take (n + 1) = l.take n ++ [l.getD n 0] := by
  rw [List.take_succ]
  simp [List.getElem?_eq_getElem h, List.getD_eq_getElem _ _ h]

theorem getD_drop_add (l : List Nat) (m n : Nat) :
    (l.drop m).getD n 0 = l.getD (m + n) 0 := by
  induction m generalizing l with
  | zero => simp
  | succ k ih =>
    cases l with
    | nil => simp
    | cons x t =>
      rw [List.drop_succ_cons, ih t]
      have : k + 1 + n = (k + n) + 1 := by omega
      rw [this, List.getD_cons_succ]

/-- Modelled from the spec: the per-stream parser state `t_stReceiveData`
is declared by CmndLib headers that are not under `src/`.  Per the data
model of the spec it holds the in-progress frame reconstruction: here the
message under construction and the count of bytes received so far in the
current frame.  The header-parsed flag of the spec is the condition that
the count has reached the fixed header size, and the expected total
framed length is supplied externally (the spec: it is supplied by the
same length field used when parsing a whole buffer). -/
structure t_stReceiveData where
  st_Msg : t_st_hanCmndApiMsg
  u16_Count : Nat
deriving DecidableEq

/-- The zero-initialized parser state, the effect of
`memset(&g_ParserContext, 0, sizeof(t_stReceiveData))` in the examples. -/
def zeroReceiveData : t_stReceiveData :=
  { st_Msg := zeroed_hanCmndApiMsg, u16_Count := 0 }

/-- Modelled from the spec: how the incoming byte at position n of the
frame is incorporated into the message under construction.  The six
header bytes fill cookie, unitId, the two serviceId bytes in big-endian
order, messageId and checksum; when the checksum byte completes the fixed
header the payload length becomes known from the supplied total framed
length; every later byte is stored at its position in the data array. -/
def hanCmndApi_Incorporate (u16_TotalLength n : Nat) (m : t_st_hanCmndApiMsg)
    (u8_Byte : Nat) : t_st_hanCmndApiMsg :=
  if n = 0 then { m with cookie := u8_Byte }
  else if n = 1 then { m with unitId := u8_Byte }
  else if n = 2 then { m with serviceId := u8_Byte }
  else if n = 3 then { m with serviceId := (m.serviceId * 256 + u8_Byte) % 65536 }
  else if n = 4 then { m with messageId := u8_Byte }
  else if n = 5 then { m with
    checkSum := u8_Byte
    dataLength := u16_TotalLength - CMND_API_PROTOCOL_SIZE_WITHOUT_DATA }
  else { m with
    data := m.data.set (n - CMND_API_PROTOCOL_SIZE_WITHOUT_DATA) u8_Byte }

/-- Modelled from the spec: the byte-at-a-time framer
`p_hanCmndApi_HandleByte`, whose C source is not under `src/` (only its
callers are).  It appends the incoming byte to the in-progress frame and
returns the new state, the bool result of the C function (true exactly
when this byte completed a frame) and the message handed back through the
out-pointer at that moment (`none` when no frame completed).  When the
payload length implied by the supplied total framed length would reach
the maximum payload size, the in-progress frame is discarded and parsing
resynchronizes without emitting a message; after a completed frame the
state resets to await the next frame. -/
def p_hanCmndApi_HandleByte (u16_TotalLength : Nat) (st : t_stReceiveData)
    (u8_Byte : Nat) : t_stReceiveData × Bool × Option t_st_hanCmndApiMsg :=
  if st.u16_Count = 5 ∧ CMND_API_PROTOCOL_SIZE_WITHOUT_DATA < u16_TotalLength ∧
      CMNDLIB_API_PACKET_MAX_SIZE ≤
        u16_TotalLength - CMND_API_PROTOCOL_SIZE_WITHOUT_DATA then
    (zeroReceiveData, false, none)
  else if st.u16_Count + 1 = u16_TotalLength then
    (zeroReceiveData, true,
      some (hanCmndApi_Incorporate u16_TotalLength st.u16_Count st.st_Msg u8_Byte))
  else
    ({ st_Msg := hanCmndApi_Incorporate u16_TotalLength st.u16_Count st.st_Msg u8_Byte
       u16_Count := st.u16_Count + 1 }, false, none)

/-- Feeding a list of bytes one at a time through the byte framer,
collecting the (bool, message) output of every call. -/
def hanCmndApi_FeedBytes (u16_TotalLength : Nat) (st : t_stReceiveData) :
    List Nat → t_stReceiveData × List (Bool × Option t_st_hanCmndApiMsg)
  | [] => (st, [])
  | u8_Byte :: rest =>
    ((hanCmndApi_FeedBytes u16_TotalLength
        (p_hanCmndApi_HandleByte u16_TotalLength st u8_Byte).1 rest).1,
      ((p_hanCmndApi_HandleByte u16_TotalLength st u8_Byte).2.1,
        (p_hanCmndApi_HandleByte u16_TotalLength st u8_Byte).2.2) ::
        (hanCmndApi_FeedBytes u16_TotalLength
          (p_hanCmndApi_HandleByte u16_TotalLength st u8_Byte).1 rest).2)

/-- The message under construction after the first k bytes of a frame b
of total length L have been incorporated. -/
def midMsg (b : List Nat) (L k : Nat) : t_st_hanCmndApiMsg :=
  { cookie := if 1 ≤ k then b.getD 0 0 else 0
    unitId := if 2 ≤ k then b.getD 1 0 else 0
    serviceId := if 4 ≤ k then (b.getD 2 0 * 256 + b.getD 3 0) % 65536
      else if 3 ≤ k then b.getD 2 0 else 0
    messageId := if 5 ≤ k then b.getD 4 0 else 0
    checkSum := if 6 ≤ k then b.getD 5 0 else 0
    dataLength := if 6 ≤ k then L - 6 else 0
    data := (b.drop 6).take (k - 6) ++
      List.replicate (CMNDLIB_API_PACKET_MAX_SIZE - (k - 6)) 0 }

theorem midMsg_zero (b : List Nat) (L : Nat) :
    midMsg b L 0 = zeroed_hanCmndApiMsg := by
  simp [midMsg, zeroed_hanCmndApiMsg]

theorem incorporate_mid (b : List Nat) (L k : Nat) (hk : k < b.length)
    (hLb : L = b.length) (hmax : L - 6 < CMNDLIB_API_PACKET_MAX_SIZE) :
    hanCmndApi_Incorporate L k (midMsg b L k) (b.getD k 0) = midMsg b L (k + 1) := by
  match k with
  | 0 => simp [hanCmndApi_Incorporate, midMsg]
  | 1 => simp [hanCmndApi_Incorporate, midMsg]
  | 2 => simp [hanCmndApi_Incorporate, midMsg]
  | 3 => simp [hanCmndApi_Incorporate, midMsg]
  | 4 => simp [hanCmndApi_Incorporate, midMsg]
  | 5 =>
    simp [hanCmndApi_Incorporate, midMsg,
      CMND_API_PROTOCOL_SIZE_WITHOUT_DATA]
  | (n + 6) =>
    have h0 : n + 6 ≠ 0 := by omega
    have h1 : n + 6 ≠ 1 := by omega
    have h2 : n + 6 ≠ 2 := by omega
    have h3 : n + 6 ≠ 3 := by omega
    have h4 : n + 6 ≠ 4 := by omega
    have h5 : n + 6 ≠ 5 := by omega
    have hn : n < (b.drop 6).length := by
      rw [List.length_drop]
      omega
    have htl : ((b.drop 6).take n).length = n := by
      rw [List.length_take, List.length_drop]
      omega
    have hrep : CMNDLIB_API_PACKET_MAX_SIZE - n =
        (CMNDLIB_API_PACKET_MAX_SIZE - (n + 1)) + 1 := by
      have hn128 : n < CMNDLIB_API_PACKET_MAX_SIZE := by
        have hnL : n < L - 6 := by omega
        omega
      omega
    have hdeq : ((b.drop 6).take n ++
          List.replicate (CMNDLIB_API_PACKET_MAX_SIZE - n) 0).set
          (n + 6 - CMND_API_PROTOCOL_SIZE_WITHOUT_DATA) (b.getD (n + 6) 0) =
        (b.drop 6).take (n + 1) ++
          List.replicate (CMNDLIB_API_PACKET_MAX_SIZE - (n + 1)) 0 := by
      rw [show n + 6 - CMND_API_PROTOCOL_SIZE_WITHOUT_DATA = n from rfl,
        set_append_of_length _ _ _ _ htl, take_succ_getD _ _ hn, getD_drop_add,
        hrep, List.replicate_succ, Nat.add_comm 6 n]
      simp
    simp only [List.getD_eq_getElem?_getD] at hdeq
    simp [hanCmndApi_Incorporate, midMsg, h0, h1, h2, h3, h4, h5, hdeq]

theorem handleByte_mid_step (b : List Nat) (k : Nat) (u8_Byte : Nat)
    (hbyte : u8_Byte = b.getD k 0) (hk : k < b.length)
    (hmax : b.length - 6 < CMNDLIB_API_PACKET_MAX_SIZE)
    (hlast : k + 1 ≠ b.length) :
    p_hanCmndApi_HandleByte b.length ⟨midMsg b b.length k, k⟩ u8_Byte =
      (⟨midMsg b b.length (k + 1), k + 1⟩, false, none) := by
  subst hbyte
  have hcond : ¬(k = 5 ∧ CMND_API_PROTOCOL_SIZE_WITHOUT_DATA < b.length ∧
      CMNDLIB_API_PACKET_MAX_SIZE ≤
        b.length - CMND_API_PROTOCOL_SIZE_WITHOUT_DATA) := by
    rintro ⟨-, -, hcc⟩
    have hcc6 : (128:Nat) ≤ b.length - 6 := hcc
    have hmax128 : b.length - 6 < 128 := hmax
    omega
  show (if k = 5 ∧ _ ∧ _ then _ else if k + 1 = b.length then _ else _) = _
  rw [if_neg hcond, if_neg hlast, incorporate_mid b b.length k hk rfl hmax]

theorem handleByte_last_step (b : List Nat) (k : Nat) (u8_Byte : Nat)
    (hbyte : u8_Byte = b.getD k 0) (hk : k < b.length)
    (hmax : b.length - 6 < CMNDLIB_API_PACKET_MAX_SIZE)
    (hlast : k + 1 = b.length) :
    p_hanCmndApi_HandleByte b.length ⟨midMsg b b.length k, k⟩ u8_Byte =
      (zeroReceiveData, true, some (midMsg b b.length b.length)) := by
  subst hbyte
  have hcond : ¬(k = 5 ∧ CMND_API_PROTOCOL_SIZE_WITHOUT_DATA < b.length ∧
      CMNDLIB_API_PACKET_MAX_SIZE ≤
        b.length - CMND_API_PROTOCOL_SIZE_WITHOUT_DATA) := by
    rintro ⟨-, -, hcc⟩
    have hcc6 : (128:Nat) ≤ b.length - 6 := hcc
    have hmax128 : b.length - 6 < 128 := hmax
    omega
  show (if k = 5 ∧ _ ∧ _ then _ else if k + 1 = b.length then _ else _) = _
  rw [if_neg hcond, if_pos hlast, incorporate_mid b b.length k hk rfl hmax, hlast]

theorem feedBytes_from_mid (b : List Nat)
    (hmax : b.length - 6 < CMNDLIB_API_PACKET_MAX_SIZE) :
    ∀ n k, n + k = b.length → k < b.length →
      hanCmndApi_FeedBytes b.length ⟨midMsg b b.length k, k⟩ (b.drop k) =
        (zeroReceiveData,
          List.replicate (b.length - k - 1) (false, none) ++
            [(true, some (midMsg b b.length b.length))]) := by
  intro n
  induction n with
  | zero =>
    intro k hn hk
    omega
  | succ n ih =>
    intro k hn hk
    rw [List.drop_eq_getElem_cons hk]
    simp only [hanCmndApi_FeedBytes]
    by_cases hlast : k + 1 = b.length
    · rw [handleByte_last_step b k _ (List.getD_eq_getElem _ _ hk).symm hk hmax hlast]
      have hdone : b.drop (k + 1) = [] := by
        refine List.drop_eq_nil_of_le ?_
        omega
      rw [hdone]
      simp only [hanCmndApi_FeedBytes]
      have hrep0 : b.length - k - 1 = 0 := by omega
      rw [hrep0]
      simp
    · rw [handleByte_mid_step b k _ (List.getD_eq_getElem _ _ hk).symm hk hmax hlast]
      have hk1 : k + 1 < b.length := by omega
      rw [ih (k + 1) (by omega) hk1]
      have hrepS : b.length - k - 1 = (b.length - (k + 1) - 1) + 1 := by omega
      rw [hrepS, List.replicate_succ]
      simp

/-- C6: for every valid encoded packet buffer (fixed header plus a payload
within the maximum size), feeding its bytes one at a time through the byte
framer starting from the zero-initialized state emits a message exactly
once, on the last byte only, and that message equals the output of the
whole-buffer parser applied to the entire buffer. -/
theorem handleByte_matches_parseBuffer (b : List Nat)
    (hlen : CMND_API_PROTOCOL_SIZE_WITHOUT_DATA ≤ b.length)
    (hmax : b.length - CMND_API_PROTOCOL_SIZE_WITHOUT_DATA <
      CMNDLIB_API_PACKET_MAX_SIZE) :
    ∃ m : t_st_hanCmndApiMsg,
      (hanCmndApi_FeedBytes b.length zeroReceiveData b).2 =
        List.replicate (b.length - 1) (false, none) ++ [(true, some m)] ∧
      ∀ m0 : t_st_hanCmndApiMsg,
        p_CmndPacketParser_ParseCmndPacket b.length b (some m0) =
          (true, some m) := by
  have hlen6 : (6:Nat) ≤ b.length := hlen
  have hmax6 : b.length - 6 < CMNDLIB_API_PACKET_MAX_SIZE := hmax
  refine ⟨midMsg b b.length b.length, ?_, ?_⟩
  · have h0 : (0:Nat) < b.length := by omega
    have hfeed := feedBytes_from_mid b hmax6 b.length 0 (by omega) h0
    rw [midMsg_zero, List.drop_zero] at hfeed
    show (hanCmndApi_FeedBytes b.length ⟨zeroed_hanCmndApiMsg, 0⟩ b).2 = _
    rw [hfeed]
    have hs : b.length - 0 - 1 = b.length - 1 := by omega
    rw [hs]
  · intro m0
    have t1 : 1 ≤ b.length := by omega
    have t2 : 2 ≤ b.length := by omega
    have t4 : 4 ≤ b.length := by omega
    have t5 : 5 ≤ b.length := by omega
    have t6 : 6 ≤ b.length := by omega
    rcases Nat.eq_or_lt_of_le hlen with h6 | h6
    · rw [parseCmndPacket_exact _ _ _ h6.symm]
      refine congrArg _ (congrArg _ ?_)
      have hb : b.length = 6 := h6.symm
      ext : 1 <;>
        simp [parsedHeader, midMsg, p_Endian_net2hos16, hb,
          CMND_API_PROTOCOL_COOKIE_POS, CMND_API_PROTOCOL_UNITID_POS,
          CMND_API_PROTOCOL_SERVICEID_POS, CMND_API_PROTOCOL_MESSAGEID_POS,
          CMND_API_PROTOCOL_CHECKSUM_POS]
    · rw [parseCmndPacket_mid _ _ _ h6 hmax]
      refine congrArg _ (congrArg _ ?_)
      have hpl : ((b.drop CMND_API_PROTOCOL_DATASTART_POS).take
          (b.length - CMND_API_PROTOCOL_SIZE_WITHOUT_DATA)).length =
            b.length - 6 := by
        show ((b.drop 6).take (b.length - 6)).length = b.length - 6
        rw [List.length_take, List.length_drop]
        omega
      ext : 1
      · simp [parsedHeader, midMsg, t1, CMND_API_PROTOCOL_COOKIE_POS]
      · simp [parsedHeader, midMsg, t2, CMND_API_PROTOCOL_UNITID_POS]
      · simp [parsedHeader, midMsg, t4, p_Endian_net2hos16,
          CMND_API_PROTOCOL_SERVICEID_POS]
      · simp [parsedHeader, midMsg, t5, CMND_API_PROTOCOL_MESSAGEID_POS]
      · simp [parsedHeader, midMsg, t6, CMND_API_PROTOCOL_CHECKSUM_POS]
      · simp [midMsg, t6, CMND_API_PROTOCOL_SIZE_WITHOUT_DATA]
      · show memcpyInto (List.replicate CMNDLIB_API_PACKET_MAX_SIZE 0) _ =
          (midMsg b b.length b.length).data
        rw [memcpyInto, hpl, List.drop_replicate]
        simp [midMsg, CMND_API_PROTOCOL_DATASTART_POS,
          CMND_API_PROTOCOL_SIZE_WITHOUT_DATA]

/-- Witness for C6 at the 6-byte frame `[0xAA, 3, 0, 1, 5, 0x7A]`. -/
theorem handleByte_matches_parseBuffer_witness :
    ∃ m : t_st_hanCmndApiMsg,
      (hanCmndApi_FeedBytes 6 zeroReceiveData [0xAA, 3, 0, 1, 5, 0x7A]).2 =
        List.replicate 5 (false, none) ++ [(true, some m)] ∧
      ∀ m0 : t_st_hanCmndApiMsg,
        p_CmndPacketParser_ParseCmndPacket 6 [0xAA, 3, 0, 1, 5, 0x7A] (some m0) =
          (true, some m) :=
  handleByte_matches_parseBuffer [0xAA, 3, 0, 1, 5, 0x7A] (by decide) (by decide)

end DectSandbox
